import Mathlib

/-!
Shallow embedding of the document-classification and plan-comparison core of
the ClientManager server (`server/routes.ts`).  Monetary amounts and match
scores, stored as decimal strings / JS numbers in the source, are modelled as
exact rationals; nullable database columns are modelled as `Option` fields.
JS stable `Array.sort` is modelled by a stable insertion sort.
-/

set_option maxRecDepth 40000

namespace ClientManager

/-- Contiguous-sublist test on character lists. -/
def listContains (needle : List Char) : List Char → Bool
  | [] => needle.isEmpty
  | a :: rest => needle.isPrefixOf (a :: rest) || listContains needle rest

/-- JS `hay.includes(needle)` substring test. -/
def jsIncludes (hay needle : String) : Bool :=
  listContains needle.toList hay.toList

/-- JS `name.split(/\s+/).filter(w => w.length > 2)`: the words of length
more than two of a name (empty segments are removed by the filter either way). -/
def sigWords (s : String) : List String :=
  (s.split Char.isWhitespace).filter (fun w => w.length > 2)

/-- JS `Math.round` for the non-negative values that occur here:
round half up, i.e. the floor of `q + 1/2`. -/
def jsRound (q : ℚ) : ℤ := ⌊q + 1/2⌋

/-- Stable insertion of `x` into a list sorted descending by `key`: `x` goes
after every earlier element whose key is at least `key x`, which is what a
stable descending JS `sort((a,b) => b.k - a.k)` produces. -/
def insertDesc (key : α → ℚ) (x : α) : List α → List α
  | [] => [x]
  | y :: ys => if key y < key x then x :: y :: ys else y :: insertDesc key x ys

/-- Stable descending sort by `key`, modelling JS `sort((a,b) => b.k - a.k)`. -/
def sortByDesc (key : α → ℚ) (l : List α) : List α :=
  l.foldl (fun acc x => insertDesc key x acc) []

theorem mem_insertDesc {key : α → ℚ} {x a : α} {l : List α} :
    a ∈ insertDesc key x l ↔ a = x ∨ a ∈ l := by
  induction l with
  | nil => simp [insertDesc]
  | cons y ys ih =>
      simp only [insertDesc]
      split
      · simp
      · simp [ih]; tauto

theorem mem_sortByDesc_aux {key : α → ℚ} {a : α} :
    ∀ (l acc : List α), a ∈ l.foldl (fun acc x => insertDesc key x acc) acc ↔
      a ∈ acc ∨ a ∈ l := by
  intro l
  induction l with
  | nil => simp
  | cons x xs ih =>
      intro acc
      simp only [List.foldl_cons]
      rw [ih]
      simp [mem_insertDesc]
      tauto

theorem mem_sortByDesc {key : α → ℚ} {a : α} {l : List α} :
    a ∈ sortByDesc key l ↔ a ∈ l := by
  unfold sortByDesc
  rw [mem_sortByDesc_aux]
  simp

/-! ### Data model (`shared/schema.ts`, fields used by the core) -/

/-- Carrier catalog entry. -/
structure Carrier where
  id : ℕ
  name : String
deriving DecidableEq

/-- Plan catalog entry; nullable columns are `Option`. -/
structure Plan where
  id : ℕ
  carrierId : ℕ
  name : String
  stateCode : Option String
  counties : Option (List String)
  monthlyPremium : Option ℚ
  maxOutOfPocket : Option ℚ
  primaryCareCopay : Option ℚ
  specialistCopay : Option ℚ
  isCSnp : Bool
  isDSnp : Bool
deriving DecidableEq

/-! ### Plan comparison / scoring engine (`routes.ts`, compare handler) -/

/-- A reason string produced by the scoring rules, abstracted to the rule that
fired together with the dollar amount interpolated into the message. -/
inductive Reason where
  | premiumSavings (amount : ℚ)
  | higherPremium (amount : ℚ)
  | lowerMoop (amount : ℚ)
  | lowerPrimaryCopay
  | lowerSpecialistCopay
  | cSnp
  | dSnp
deriving DecidableEq

structure ScoredPlan where
  plan : Plan
  score : ℚ
  reasons : List Reason
deriving DecidableEq

/-- The additive point system of the compare handler over the parsed numeric
values of the current plan and the candidate (`scoreCore` is the body of the
scoring arrow once `parseFloat(x || default)` has produced the numbers). -/
def scoreCore (plan : Plan) (currentPremium planPremium currentMoop planMoop
    currentPcp planPcp currentSpc planSpc : ℚ) : ScoredPlan :=
  let premiumSavings := currentPremium - planPremium
  let sr1 : ℚ × List Reason :=
    if 50 < premiumSavings then (100 + 40, [Reason.premiumSavings premiumSavings])
    else if 20 < premiumSavings then (100 + 25, [Reason.premiumSavings premiumSavings])
    else if 0 < premiumSavings then (100 + 10, [Reason.premiumSavings premiumSavings])
    else if premiumSavings < -20 then (100 - 20, [Reason.higherPremium |premiumSavings|])
    else (100, [])
  let sr2 :=
    if planMoop < currentMoop then
      (sr1.1 + 30, sr1.2 ++ [Reason.lowerMoop (currentMoop - planMoop)])
    else sr1
  let sr3 :=
    if planPcp < currentPcp then (sr2.1 + 10, sr2.2 ++ [Reason.lowerPrimaryCopay]) else sr2
  let sr4 :=
    if planSpc < currentSpc then (sr3.1 + 10, sr3.2 ++ [Reason.lowerSpecialistCopay]) else sr3
  let sr5 :=
    if plan.isCSnp || plan.isDSnp then
      (sr4.1 + 15, sr4.2 ++ [if plan.isCSnp then Reason.cSnp else Reason.dSnp])
    else sr4
  { plan := plan, score := sr5.1, reasons := sr5.2 }

/-- The additive scoring of one candidate against the current plan
(`routes.ts` compare handler).  Missing premium/copay fields parse as `0`,
a missing MOOP parses as the `999999` sentinel. -/
def scorePlan (currentPlan plan : Plan) : ScoredPlan :=
  scoreCore plan
    (currentPlan.monthlyPremium.getD 0) (plan.monthlyPremium.getD 0)
    (currentPlan.maxOutOfPocket.getD 999999) (plan.maxOutOfPocket.getD 999999)
    (currentPlan.primaryCareCopay.getD 0) (plan.primaryCareCopay.getD 0)
    (currentPlan.specialistCopay.getD 0) (plan.specialistCopay.getD 0)

/-- The candidate filter of the compare handler:
`plan.stateCode === client.state && plan.counties &&
 plan.counties.includes(client.county) && plan.id !== currentPlan.id`. -/
def planAvailable (clientState : Option String) (county : String) (currentPlanId : ℕ)
    (p : Plan) : Bool :=
  decide (p.stateCode = clientState) &&
  (match p.counties with
   | some cs => cs.contains county
   | none => false) &&
  decide (p.id ≠ currentPlanId)

def filterAvailable (allPlans : List Plan) (clientState : Option String) (county : String)
    (currentPlanId : ℕ) : List Plan :=
  allPlans.filter (planAvailable clientState county currentPlanId)

/-- Filter, score and rank all candidates (descending by score). -/
def comparePlans (allPlans : List Plan) (clientState : Option String) (county : String)
    (currentPlan : Plan) : List ScoredPlan :=
  sortByDesc (fun sp => sp.score)
    ((filterAvailable allPlans clientState county currentPlan.id).map (scorePlan currentPlan))

/-- The returned top-3 recommendation list (`scoredPlans.slice(0, 3)`). -/
def top3Compare (allPlans : List Plan) (clientState : Option String) (county : String)
    (currentPlan : Plan) : List ScoredPlan :=
  (comparePlans allPlans clientState county currentPlan).take 3

/-! ### Document-type detection and carrier/plan fuzzy matching
(`routes.ts`, `parsePlanDocumentText` and helpers) -/

/-- Ordered keyword bank for document-type detection (`docTypePatterns`). -/
def docTypePatterns : List (String × List String) :=
  [("SOB", ["SUMMARY OF BENEFITS", "SUMMARY OF BENEFIT", "SOB"]),
   ("EOC", ["EVIDENCE OF COVERAGE", "EOC"]),
   ("ANOC", ["ANNUAL NOTICE OF CHANGE", "ANNUAL NOTICE OF CHANGES", "ANOC"]),
   ("PROVIDER_LIST", ["PROVIDER DIRECTORY", "PROVIDER LIST", "PROVIDER NETWORK"]),
   ("DRUG_FORMULARY", ["DRUG FORMULARY", "FORMULARY", "PRESCRIPTION DRUG LIST", "COVERED DRUGS"])]

/-- First document type (in bank order) one of whose keywords occurs in the
uppercased text; empty string when none does. -/
def detectDocType (upperText : String) : String :=
  match docTypePatterns.find? (fun pat => pat.2.any (fun k => jsIncludes upperText k)) with
  | some pat => pat.1
  | none => ""

/-- Shape test for a Medicare plan-ID token: `[HS]` then four digits, a
hyphen, and three digits (the regex `[HS]\d-something`, see `planIdPattern`). -/
def planIdShape (a b c d e f g h i : Char) : Bool :=
  (a == 'H' || a == 'S') && b.isDigit && c.isDigit && d.isDigit && e.isDigit &&
  (f == '-') && g.isDigit && h.isDigit && i.isDigit

/-- Left-to-right non-overlapping scan for plan-ID tokens, the semantics of
`text.match(/[HS]\d{4}-\d{3}/g)`: at each position try the 9-character
pattern; on a hit record it and resume after it, otherwise advance one. -/
def findPlanIdTokens : List Char → List (List Char)
  | a :: b :: c :: d :: e :: f :: g :: h :: i :: rest2 =>
    if planIdShape a b c d e f g h i then
      [a, b, c, d, e, f, g, h, i] :: findPlanIdTokens rest2
    else
      findPlanIdTokens (b :: c :: d :: e :: f :: g :: h :: i :: rest2)
  | _ => []

/-- All plan-ID tokens found in the raw text (`foundPlanIds`). -/
def findPlanIds (text : String) : List String :=
  (findPlanIdTokens text.toList).map (fun cs => String.mk cs)

/-- Carrier match score: 100 on a verbatim substring hit of the uppercased
name, else the fraction of significant name words present, times 100. -/
def carrierMatchScore (upperText : String) (name : String) : ℚ :=
  let cn := name.toUpper
  if jsIncludes upperText cn then 100
  else
    let ws := sigWords cn
    let matched := (ws.filter (fun w => jsIncludes upperText w)).length
    if 0 < ws.length then ((matched : ℚ) / (ws.length : ℚ)) * 100 else 0

/-- Plan match score: 100 on a plan-ID token occurring in the plan name,
else 90 on a verbatim substring hit, else word-overlap ratio times 80. -/
def planMatchScore (upperText : String) (foundIds : List String) (name : String) : ℚ :=
  let pn := name.toUpper
  if foundIds.any (fun pid => jsIncludes pn pid) then 100
  else if jsIncludes upperText pn then 90
  else
    let ws := sigWords pn
    let matched := (ws.filter (fun w => jsIncludes upperText w)).length
    if 0 < ws.length then ((matched : ℚ) / (ws.length : ℚ)) * 80 else 0

/-- Accumulator of the carrier loop: current best accepted carrier, best raw
score, and the candidate list in push order. -/
structure CarrierScan where
  best : Option Carrier
  bestScore : ℚ
  cands : List (String × ℚ)

/-- One iteration of the carrier loop: the best score updates on a strict
improvement, and the carrier is accepted only then and only at score 50+. -/
def carrierStep (upperText : String) (st : CarrierScan) (c : Carrier) : CarrierScan :=
  let score := carrierMatchScore upperText c.name
  let ms := st.cands ++ [(c.name, score)]
  if st.bestScore < score then
    { best := if 50 ≤ score then some c else st.best, bestScore := score, cands := ms }
  else
    { st with cands := ms }

def scanCarriers (upperText : String) (carriers : List Carrier) : CarrierScan :=
  carriers.foldl (carrierStep upperText) ⟨none, 0, []⟩

/-- Accumulator of the plan loop; `matches` entries carry the plan name, its
carrier's name, and the score. -/
structure PlanScan where
  best : Option Plan
  bestScore : ℚ
  cands : List (String × String × ℚ)

/-- One iteration of the plan loop, including the carrier-affinity tie-break:
the branch is entered on a strictly better score, or an equal score when the
plan belongs to the already-matched carrier; inside, the best score is always
overwritten, but the best plan only changes at score 40+ and (when a carrier
is matched and this plan is foreign) only if no best plan was chosen yet. -/
def planStep (upperText : String) (foundIds : List String) (carriers : List Carrier)
    (bestCarrier : Option Carrier) (st : PlanScan) (p : Plan) : PlanScan :=
  let score := planMatchScore upperText foundIds p.name
  let carrierName :=
    match carriers.find? (fun c => c.id == p.carrierId) with
    | some c => c.name
    | none => "Unknown"
  let ms := st.cands ++ [(p.name, carrierName, score)]
  if st.bestScore < score ∨
      (score = st.bestScore ∧ bestCarrier.any (fun c => p.carrierId == c.id) = true) then
    { bestScore := score
      best :=
        if 40 ≤ score then
          match bestCarrier with
          | none => some p
          | some c =>
            if p.carrierId = c.id then some p
            else
              match st.best with
              | none => some p
              | some b => some b
        else st.best
      cands := ms }
  else
    { st with cands := ms }

def scanPlans (upperText : String) (foundIds : List String) (carriers : List Carrier)
    (bestCarrier : Option Carrier) (plans : List Plan) : PlanScan :=
  plans.foldl (planStep upperText foundIds carriers bestCarrier) ⟨none, 0, []⟩

/-- Confidence aggregation over the two scans (`parsePlanDocumentText`). -/
def confidenceOf (cSel : CarrierScan) (pSel : PlanScan) : ℚ :=
  match cSel.best, pSel.best with
  | some c, some p =>
    if p.carrierId = c.id then (cSel.bestScore + pSel.bestScore) / 2
    else ((cSel.bestScore + pSel.bestScore) / 2) * (7 / 10)
  | some _, none => max cSel.bestScore pSel.bestScore * (6 / 10)
  | none, some _ => max cSel.bestScore pSel.bestScore * (6 / 10)
  | none, none => 0

/-- Result record of `parsePlanDocumentText` (the `extractedBenefits` field is
omitted: no claim refers to it). -/
structure ParseResult where
  carrier : Option Carrier
  plan : Option Plan
  documentType : String
  confidence : ℤ
  carrierMatches : List (String × ℚ)
  planMatches : List (String × String × ℚ)
  detectedPlanIds : List String
deriving DecidableEq

/-- The classification entry point `parsePlanDocumentText(text, carriers, plans)`. -/
def parsePlanDocumentText (text : String) (carriers : List Carrier) (plans : List Plan) :
    ParseResult :=
  let upperText := text.toUpper
  let dt := detectDocType upperText
  let foundIds := findPlanIds text
  let cSel := scanCarriers upperText carriers
  let pSel := scanPlans upperText foundIds carriers cSel.best plans
  { carrier := cSel.best
    plan := pSel.best
    documentType := if dt = "" then "UNKNOWN" else dt
    confidence := jsRound (confidenceOf cSel pSel)
    carrierMatches := sortByDesc (fun m => m.2) cSel.cands
    planMatches := sortByDesc (fun m => m.2.2) pSel.cands
    detectedPlanIds := foundIds }

/-! ### Batch upload auto-assignment gate (`routes.ts`, batch OCR handler) -/

/-- Outcome of one classified document in the batch handler: either a plan
document record is created and the file stored, or a failure entry with
suggestions is returned and no record is created. -/
inductive BatchOutcome where
  | stored (planId : ℕ) (documentType : String)
  | failure (possibleCarriers : List (String × ℚ)) (possiblePlans : List (String × String × ℚ))
deriving DecidableEq

/-- The gate `!carrier || !plan || plan.carrierId !== carrier.id ||
confidence < 40` applied to a classification result: on failure the entry
carries the top-3 carrier and plan candidates as suggestions. -/
def processClassifiedDocument (r : ParseResult) : BatchOutcome :=
  match r.carrier, r.plan with
  | some c, some p =>
    if p.carrierId = c.id ∧ 40 ≤ r.confidence then .stored p.id r.documentType
    else .failure (r.carrierMatches.take 3) (r.planMatches.take 3)
  | _, _ => .failure (r.carrierMatches.take 3) (r.planMatches.take 3)

/-! ### Text extraction (`extractTextFromDocument`) -/

/-- The scanned-PDF error message thrown by `extractTextFromDocument`. -/
def scannedPdfMessage : String :=
  "This appears to be a scanned PDF. Please convert the document to JPG or PNG format and re-upload for OCR processing."

/-- JS `String.prototype.trim` on a character list. -/
def jsTrim (l : List Char) : List Char :=
  ((l.dropWhile Char.isWhitespace).reverse.dropWhile Char.isWhitespace).reverse

/-- Text extraction, with the document's text layers as inputs in place of
the pdf-parse / Tesseract library calls: for a `.pdf` extension the direct
text layer is used, and if its trimmed length is below 50 the scanned-PDF
error is thrown (the catch block re-throws it unchanged since the message
contains "scanned PDF"); other extensions return the OCR text. -/
def extractTextFromDocument (ext : String) (pdfText ocrText : List Char) :
    Except String (List Char) :=
  if ext == ".pdf" then
    if (jsTrim pdfText).length < 50 then Except.error scannedPdfMessage
    else Except.ok pdfText
  else Except.ok ocrText

/-! ### Helper lemmas -/

theorem mem_comparePlans {allPlans : List Plan} {clientState : Option String} {county : String}
    {currentPlan : Plan} {sp : ScoredPlan} :
    sp ∈ comparePlans allPlans clientState county currentPlan ↔
      ∃ p, p ∈ filterAvailable allPlans clientState county currentPlan.id ∧
        sp = scorePlan currentPlan p := by
  unfold comparePlans
  rw [mem_sortByDesc, List.mem_map]
  constructor
  · rintro ⟨p, hp, rfl⟩; exact ⟨p, hp, rfl⟩
  · rintro ⟨p, hp, rfl⟩; exact ⟨p, hp, rfl⟩

theorem mem_of_mem_top3Compare {allPlans : List Plan} {clientState : Option String}
    {county : String} {currentPlan : Plan} {sp : ScoredPlan}
    (h : sp ∈ top3Compare allPlans clientState county currentPlan) :
    sp ∈ comparePlans allPlans clientState county currentPlan := by
  unfold top3Compare at h
  exact List.mem_of_mem_take h

theorem mem_filterAvailable {allPlans : List Plan} {clientState : Option String}
    {county : String} {cur : ℕ} {p : Plan} :
    p ∈ filterAvailable allPlans clientState county cur ↔
      p ∈ allPlans ∧ p.stateCode = clientState ∧
        (∃ cs, p.counties = some cs ∧ county ∈ cs) ∧ p.id ≠ cur := by
  unfold filterAvailable planAvailable
  rw [List.mem_filter]
  constructor
  · rintro ⟨hmem, hb⟩
    simp only [Bool.and_eq_true, decide_eq_true_eq] at hb
    obtain ⟨⟨hstate, hcounty⟩, hid⟩ := hb
    refine ⟨hmem, hstate, ?_, hid⟩
    cases hcs : p.counties with
    | none => rw [hcs] at hcounty; simp at hcounty
    | some cs =>
        rw [hcs] at hcounty
        exact ⟨cs, rfl, by simpa using hcounty⟩
  · rintro ⟨hmem, hstate, ⟨cs, hcs, hin⟩, hid⟩
    refine ⟨hmem, ?_⟩
    simp only [Bool.and_eq_true, decide_eq_true_eq]
    exact ⟨⟨hstate, by rw [hcs]; simpa using hin⟩, hid⟩

/-- Concrete fixtures used by counterexamples and witnesses. -/
def curC5 : Plan :=
  ⟨1, 1, "CURRENT", some "WA", some ["Snohomish"], some 120, some 6000, none, none, false, false⟩

def planA : Plan :=
  ⟨2, 1, "ALT A", some "WA", some ["Snohomish"], some 60, some 5000, none, none, false, false⟩

def planB : Plan :=
  ⟨3, 1, "ALT B", some "WA", some ["Snohomish"], some 135, some 7000, none, none, false, false⟩

/-! ### Claim C2 -/

/-- Claim C2: for every plan-comparison call, the client's current plan
(identified by its plan ID) never appears among the scored candidates and
therefore never appears in the returned top-3 recommendation list. -/
theorem claim2_self_exclusion :
    ∀ (allPlans : List Plan) (clientState : Option String) (county : String)
      (currentPlan : Plan) (sp : ScoredPlan),
      (sp ∈ comparePlans allPlans clientState county currentPlan →
        sp.plan.id ≠ currentPlan.id) ∧
      (sp ∈ top3Compare allPlans clientState county currentPlan →
        sp.plan.id ≠ currentPlan.id) := by
  intro allPlans clientState county currentPlan sp
  have main : sp ∈ comparePlans allPlans clientState county currentPlan →
      sp.plan.id ≠ currentPlan.id := by
    intro hmem
    obtain ⟨p, hp, rfl⟩ := mem_comparePlans.mp hmem
    have := (mem_filterAvailable.mp hp).2.2.2
    simpa [scorePlan] using this
  exact ⟨main, fun h => main (mem_of_mem_top3Compare h)⟩

/-- Witness for C2 at a concrete comparison call whose top-3 list is nonempty. -/
theorem claim2_self_exclusion_witness :
    (scorePlan curC5 planA).plan.id ≠ curC5.id :=
  (claim2_self_exclusion [planA] (some "WA") "Snohomish" curC5 (scorePlan curC5 planA)).2
    (by norm_num [top3Compare, comparePlans, sortByDesc, filterAvailable, List.filter,
      planAvailable, insertDesc, curC5, planA])

/-! ### Claim C4 -/

/-- County comparison as the spec words it (refinement comparison only, not
part of the embedding of the source): case-insensitive, trimmed match of the
client's county against the plan's counties list. -/
def countyMatchSpecRule (clientCounty : String) (counties : List String) : Bool :=
  counties.any (fun c => c.trim.toUpper == clientCounty.trim.toUpper)

/-- Counterexample to claim C4 as stated: for a client county `"king"` and a
plan whose counties list is `["King"]`, the spec's case-insensitive trimmed
rule keeps the plan, but the code's filter (plain JS `Array.includes`, an
exact case-sensitive comparison) excludes it. -/
theorem claim4_counterexample :
    countyMatchSpecRule "king" ["King"] = true ∧
    filterAvailable
      [⟨7, 1, "KING PLAN", some "WA", some ["King"], none, none, none, none, false, false⟩]
      (some "WA") "king" 0 = [] := by
  constructor
  · with_unfolding_all decide
  · decide

/-- Claim C4 amended: the pre-scoring filter keeps exactly those plans whose
`stateCode` equals the client's state and whose counties list contains the
client's county under an exact (case-sensitive, untrimmed) string comparison,
excluding plans with no counties list and the current plan's ID; consequently
every returned candidate explicitly lists the client's county, so a plan
whose counties are `["King", "Pierce"]` is never returned for a `"Snohomish"`
client. -/
theorem claim4_county_filter :
    (∀ (allPlans : List Plan) (st : Option String) (county : String) (cur : ℕ) (p : Plan),
        p ∈ filterAvailable allPlans st county cur ↔
          p ∈ allPlans ∧ p.stateCode = st ∧
            (∃ cs, p.counties = some cs ∧ county ∈ cs) ∧ p.id ≠ cur) ∧
    (∀ (allPlans : List Plan) (st : Option String) (cur : Plan) (sp : ScoredPlan),
        sp ∈ top3Compare allPlans st "Snohomish" cur →
          "Snohomish" ∈ sp.plan.counties.getD []) := by
  refine ⟨fun _ _ _ _ _ => mem_filterAvailable, ?_⟩
  intro allPlans st cur sp hmem
  obtain ⟨p, hp, rfl⟩ := mem_comparePlans.mp (mem_of_mem_top3Compare hmem)
  obtain ⟨-, -, ⟨cs, hcs, hin⟩, -⟩ := mem_filterAvailable.mp hp
  have : (scorePlan cur p).plan = p := rfl
  rw [this, hcs]
  simpa using hin

/-- Witness for C4's amended statement at a concrete call with a nonempty
top-3 list. -/
theorem claim4_county_filter_witness :
    "Snohomish" ∈ (scorePlan curC5 planA).plan.counties.getD [] :=
  claim4_county_filter.2 [planA] (some "WA") curC5 (scorePlan curC5 planA)
    (by norm_num [top3Compare, comparePlans, sortByDesc, filterAvailable, List.filter,
      planAvailable, insertDesc, curC5, planA])

/-! ### Claim C5 -/

/-- Counterexample to claim C5 as stated: in the sample scenario, candidate B
(premium 135 against current 120, i.e. a 15-dollar increase) does not trip
the `premiumSavings < -20` penalty, so its total is 100, not the claimed 80. -/
theorem claim5_counterexample :
    (scorePlan curC5 planB).score = 100 ∧ (scorePlan curC5 planB).score ≠ 80 := by
  norm_num [scorePlan, scoreCore, curC5, planB]

/-- Claim C5 amended: in the sample scenario, candidate A scores
100 + 40 (premium) + 30 (MOOP) = 170 with the corresponding two reasons,
candidate B scores 100 (its 15-dollar premium increase is within the 20-dollar
tolerance, and its MOOP is worse, so no rule fires), and A ranks above B. -/
theorem claim5_sample_scenario :
    top3Compare [planA, planB] (some "WA") "Snohomish" curC5 =
      [⟨planA, 170, [Reason.premiumSavings 60, Reason.lowerMoop 1000]⟩,
       ⟨planB, 100, []⟩] := by
  norm_num [top3Compare, comparePlans, sortByDesc, filterAvailable, List.filter, planAvailable,
    insertDesc, scorePlan, scoreCore, curC5, planA, planB]

/-! ### Claim C8 -/

/-- Counterexample to claim C8 as stated: a candidate whose populated MOOP
equals the `999999` sentinel does not earn the lower-MOOP bonus against a
current plan with no MOOP on record (the comparison `999999 < 999999` fails),
so "a candidate with any populated MOOP always earns the bonus" is false. -/
theorem claim8_counterexample :
    (⟨4, 1, "EMPTY", none, none, none, none, none, none, false, false⟩ : Plan).maxOutOfPocket
        = none ∧
    (⟨5, 1, "BIG MOOP", none, none, none, some 999999, none, none, false, false⟩ : Plan).maxOutOfPocket
        = some 999999 ∧
    scorePlan ⟨4, 1, "EMPTY", none, none, none, none, none, none, false, false⟩
        ⟨5, 1, "BIG MOOP", none, none, none, some 999999, none, none, false, false⟩ =
      ⟨⟨5, 1, "BIG MOOP", none, none, none, some 999999, none, none, false, false⟩, 100, []⟩ := by
  refine ⟨rfl, rfl, ?_⟩
  norm_num [scorePlan, scoreCore]

/-- Claim C8 amended: missing monthly-premium, primary-care-copay and
specialist-copay fields on either side are scored as the value 0, and a
missing max-out-of-pocket is scored as the very large sentinel 999999, so a
candidate whose populated MOOP is below the sentinel always earns the
lower-MOOP bonus when the current plan has no MOOP on record. -/
theorem claim8_missing_field_defaults :
    (∀ cur p : Plan,
        scorePlan { cur with monthlyPremium := none } p =
          scorePlan { cur with monthlyPremium := some 0 } p) ∧
    (∀ cur p : Plan,
        (scorePlan cur { p with monthlyPremium := none }).score =
          (scorePlan cur { p with monthlyPremium := some 0 }).score ∧
        (scorePlan cur { p with monthlyPremium := none }).reasons =
          (scorePlan cur { p with monthlyPremium := some 0 }).reasons) ∧
    (∀ cur p : Plan,
        scorePlan { cur with primaryCareCopay := none } p =
          scorePlan { cur with primaryCareCopay := some 0 } p) ∧
    (∀ cur p : Plan,
        (scorePlan cur { p with primaryCareCopay := none }).score =
          (scorePlan cur { p with primaryCareCopay := some 0 }).score ∧
        (scorePlan cur { p with primaryCareCopay := none }).reasons =
          (scorePlan cur { p with primaryCareCopay := some 0 }).reasons) ∧
    (∀ cur p : Plan,
        scorePlan { cur with specialistCopay := none } p =
          scorePlan { cur with specialistCopay := some 0 } p) ∧
    (∀ cur p : Plan,
        (scorePlan cur { p with specialistCopay := none }).score =
          (scorePlan cur { p with specialistCopay := some 0 }).score ∧
        (scorePlan cur { p with specialistCopay := none }).reasons =
          (scorePlan cur { p with specialistCopay := some 0 }).reasons) ∧
    (∀ cur p : Plan,
        scorePlan { cur with maxOutOfPocket := none } p =
          scorePlan { cur with maxOutOfPocket := some 999999 } p) ∧
    (∀ cur p : Plan,
        (scorePlan cur { p with maxOutOfPocket := none }).score =
          (scorePlan cur { p with maxOutOfPocket := some 999999 }).score ∧
        (scorePlan cur { p with maxOutOfPocket := none }).reasons =
          (scorePlan cur { p with maxOutOfPocket := some 999999 }).reasons) ∧
    (∀ (cur p : Plan) (v : ℚ), cur.maxOutOfPocket = none → p.maxOutOfPocket = some v →
        v < 999999 → Reason.lowerMoop (999999 - v) ∈ (scorePlan cur p).reasons) := by
  refine ⟨fun cur p => by simp [scorePlan],
    fun cur p => ⟨by simp [scorePlan, scoreCore], by simp [scorePlan, scoreCore]⟩,
    fun cur p => by simp [scorePlan],
    fun cur p => ⟨by simp [scorePlan, scoreCore], by simp [scorePlan, scoreCore]⟩,
    fun cur p => by simp [scorePlan],
    fun cur p => ⟨by simp [scorePlan, scoreCore], by simp [scorePlan, scoreCore]⟩,
    fun cur p => by simp [scorePlan],
    fun cur p => ⟨by simp [scorePlan, scoreCore], by simp [scorePlan, scoreCore]⟩,
    ?_⟩
  intro cur p v h1 h2 h3
  simp only [scorePlan, h1, h2, Option.getD_some, Option.getD_none]
  simp only [scoreCore]
  rw [if_pos h3]
  split_ifs <;> simp [List.mem_append]

/-- Witness for C8's amended statement: a concrete candidate with MOOP 5000
against a current plan with no MOOP earns the lower-MOOP bonus of 994999. -/
theorem claim8_missing_field_defaults_witness :
    Reason.lowerMoop (999999 - 5000) ∈
      (scorePlan ⟨4, 1, "EMPTY", none, none, none, none, none, none, false, false⟩
        ⟨6, 1, "LOW MOOP", none, none, none, some 5000, none, none, false, false⟩).reasons :=
  claim8_missing_field_defaults.2.2.2.2.2.2.2.2
    ⟨4, 1, "EMPTY", none, none, none, none, none, none, false, false⟩
    ⟨6, 1, "LOW MOOP", none, none, none, some 5000, none, none, false, false⟩
    5000 rfl rfl (by norm_num)

/-! ### Claim C1 -/

/-- Claim C1: for every batch document-classification call, a document is
auto-assigned (a plan-document record created and the file stored) if and
only if the matcher returned both a carrier and a plan, the plan's carrierId
equals the carrier's id, and the rounded confidence is at least 40; any
result failing one of these conditions becomes a failure entry carrying the
top-3 carrier candidates and top-3 plan candidates as suggestions, with no
document record created. -/
theorem claim1_batch_gate :
    ∀ (text : String) (carriers : List Carrier) (plans : List Plan),
      ((∃ pid dt, processClassifiedDocument (parsePlanDocumentText text carriers plans) =
          BatchOutcome.stored pid dt) ↔
        ∃ c p, (parsePlanDocumentText text carriers plans).carrier = some c ∧
          (parsePlanDocumentText text carriers plans).plan = some p ∧
          p.carrierId = c.id ∧
          40 ≤ (parsePlanDocumentText text carriers plans).confidence) ∧
      (∀ cs ps, processClassifiedDocument (parsePlanDocumentText text carriers plans) =
          BatchOutcome.failure cs ps →
        cs = (parsePlanDocumentText text carriers plans).carrierMatches.take 3 ∧
        ps = (parsePlanDocumentText text carriers plans).planMatches.take 3) := by
  intro text carriers plans
  set r := parsePlanDocumentText text carriers plans with hr
  clear_value r
  constructor
  · constructor
    · rintro ⟨pid, dt, h⟩
      unfold processClassifiedDocument at h
      rcases hc : r.carrier with - | c
      · simp only [hc] at h; cases h
      · rcases hp : r.plan with - | p
        · simp only [hc, hp] at h; cases h
        · simp only [hc, hp] at h
          by_cases hgate : p.carrierId = c.id ∧ 40 ≤ r.confidence
          · exact ⟨c, p, rfl, rfl, hgate.1, hgate.2⟩
          · rw [if_neg hgate] at h; cases h
    · rintro ⟨c, p, hc, hp, h1, h2⟩
      refine ⟨p.id, r.documentType, ?_⟩
      unfold processClassifiedDocument
      simp only [hc, hp]
      rw [if_pos ⟨h1, h2⟩]
  · intro cs ps h
    unfold processClassifiedDocument at h
    rcases hc : r.carrier with - | c
    · simp only [hc] at h
      injection h with h1 h2
      exact ⟨h1.symm, h2.symm⟩
    · rcases hp : r.plan with - | p
      · simp only [hc, hp] at h
        injection h with h1 h2
        exact ⟨h1.symm, h2.symm⟩
      · simp only [hc, hp] at h
        split at h
        · cases h
        · injection h with h1 h2
          exact ⟨h1.symm, h2.symm⟩

/-- Witness for C1: a call with empty catalogs yields a failure entry whose
suggestion lists are the (empty) top-3 candidate lists. -/
theorem claim1_batch_gate_witness :
    ([] : List (String × ℚ)) = (parsePlanDocumentText "X" [] []).carrierMatches.take 3 ∧
    ([] : List (String × String × ℚ)) = (parsePlanDocumentText "X" [] []).planMatches.take 3 :=
  (claim1_batch_gate "X" [] []).2 [] [] (by with_unfolding_all decide)

/-! ### Claim C3 -/

/-- Classification fixtures. -/
def aetna : Carrier := ⟨1, "AETNA"⟩

def blueCross : Carrier := ⟨2, "BLUE CROSS"⟩

def goldPlan : Plan :=
  ⟨10, 1, "GOLD PLAN", none, none, none, none, none, none, false, false⟩

def foreignPlan : Plan :=
  ⟨20, 2, "SECURE CHOICE H1234-001", none, none, none, none, none, none, false, false⟩

/-- Counterexample to claim C3 as stated: the text "AETNA GOLD PLAN" matches
no document-type keyword, so it is classified UNKNOWN, yet the batch gate
(which never looks at the document type) still auto-assigns it, storing a
plan-document record with documentType "UNKNOWN" at confidence 95. -/
theorem claim3_counterexample :
    (parsePlanDocumentText "AETNA GOLD PLAN" [aetna] [goldPlan]).documentType = "UNKNOWN" ∧
    processClassifiedDocument (parsePlanDocumentText "AETNA GOLD PLAN" [aetna] [goldPlan]) =
      BatchOutcome.stored goldPlan.id "UNKNOWN" := by
  constructor
  · with_unfolding_all decide
  · with_unfolding_all decide

/-- Claim C3 amended: a classification whose text matches no document-type
keyword returns documentType UNKNOWN, but UNKNOWN does not block
auto-assignment: the batch gate stores any result with a carrier, a plan, an
agreeing carrier ID and confidence at least 40, regardless of its document
type. -/
theorem claim3_unknown_doctype :
    (∀ (text : String) (carriers : List Carrier) (plans : List Plan),
        docTypePatterns.all
          (fun pat => pat.2.all (fun k => !jsIncludes text.toUpper k)) = true →
        (parsePlanDocumentText text carriers plans).documentType = "UNKNOWN") ∧
    (∀ (r : ParseResult) (c : Carrier) (p : Plan),
        r.carrier = some c → r.plan = some p → p.carrierId = c.id → 40 ≤ r.confidence →
        processClassifiedDocument r = BatchOutcome.stored p.id r.documentType) := by
  constructor
  · intro text carriers plans hall
    have hfind : docTypePatterns.find?
        (fun pat => pat.2.any (fun k => jsIncludes text.toUpper k)) = none := by
      rw [List.find?_eq_none]
      intro pat hpat
      have := (List.all_eq_true.mp hall) pat hpat
      simp only [List.all_eq_true, Bool.not_eq_true'] at this
      simp only [List.any_eq_true]
      rintro ⟨k, hk, hinc⟩
      rw [this k hk] at hinc
      cases hinc
    unfold parsePlanDocumentText
    simp only [detectDocType, hfind]
    rfl
  · intro r c p hc hp hid hconf
    unfold processClassifiedDocument
    simp only [hc, hp]
    rw [if_pos ⟨hid, hconf⟩]

/-- Witness for C3's amended statement: a keyword-free text classifies as
UNKNOWN, and a concrete high-confidence result is stored through the gate. -/
theorem claim3_unknown_doctype_witness :
    (parsePlanDocumentText "XYZ" [] []).documentType = "UNKNOWN" ∧
    processClassifiedDocument ⟨some aetna, some goldPlan, "UNKNOWN", 95, [], [], []⟩ =
      BatchOutcome.stored goldPlan.id "UNKNOWN" :=
  ⟨claim3_unknown_doctype.1 "XYZ" [] [] (by with_unfolding_all decide),
   claim3_unknown_doctype.2 ⟨some aetna, some goldPlan, "UNKNOWN", 95, [], [], []⟩
     aetna goldPlan rfl rfl rfl (by decide)⟩

/-! ### Claim C6 -/

theorem length_dropWhile_le' (p : Char → Bool) (m : List Char) :
    (m.dropWhile p).length ≤ m.length := by
  induction m with
  | nil => simp
  | cons a t ih =>
      by_cases h : p a
      · simp [List.dropWhile, h]
        omega
      · simp [List.dropWhile, h]

theorem jsTrim_length_le (l : List Char) : (jsTrim l).length ≤ l.length := by
  unfold jsTrim
  calc (((l.dropWhile Char.isWhitespace).reverse.dropWhile Char.isWhitespace).reverse).length
      = ((l.dropWhile Char.isWhitespace).reverse.dropWhile Char.isWhitespace).length :=
        List.length_reverse _
    _ ≤ (l.dropWhile Char.isWhitespace).reverse.length := length_dropWhile_le' _ _
    _ = (l.dropWhile Char.isWhitespace).length := List.length_reverse _
    _ ≤ l.length := length_dropWhile_le' _ _

/-- Claim C6: for every PDF input whose directly extracted text layer is
under 50 characters, extraction raises the scanned-PDF error (whose message
instructs the caller to convert the document to JPG or PNG and re-upload)
and never returns that short text as a successful extraction. -/
theorem claim6_scanned_pdf :
    ∀ (pdfText ocrText : List Char), pdfText.length < 50 →
      extractTextFromDocument ".pdf" pdfText ocrText = Except.error scannedPdfMessage := by
  intro pdfText ocrText h
  unfold extractTextFromDocument
  rw [if_pos (show (".pdf" == ".pdf") = true from rfl),
    if_pos (Nat.lt_of_le_of_lt (jsTrim_length_le pdfText) h)]

/-- Witness for C6 at a concrete five-character PDF text layer. -/
theorem claim6_scanned_pdf_witness :
    "short".toList.length < 50 ∧
    extractTextFromDocument ".pdf" "short".toList [] = Except.error scannedPdfMessage :=
  ⟨by decide, claim6_scanned_pdf "short".toList [] (by decide)⟩

/-! ### Claim C9 -/

theorem wordRatio_bounds {num den : ℕ} (h : num ≤ den) (hd : 0 < den) (c : ℚ) (hc : 0 ≤ c) :
    0 ≤ ((num : ℚ) / (den : ℚ)) * c ∧ ((num : ℚ) / (den : ℚ)) * c ≤ c := by
  have hd' : (0 : ℚ) < (den : ℚ) := by exact_mod_cast hd
  have h1 : ((num : ℚ) / (den : ℚ)) ≤ 1 := by
    rw [div_le_one hd']
    exact_mod_cast h
  have h0 : 0 ≤ ((num : ℚ) / (den : ℚ)) := by positivity
  exact ⟨mul_nonneg h0 hc, by nlinarith⟩

theorem carrierMatchScore_bounds (u n : String) :
    0 ≤ carrierMatchScore u n ∧ carrierMatchScore u n ≤ 100 := by
  unfold carrierMatchScore
  dsimp only
  split
  · norm_num
  · split
    · next hlen =>
        exact wordRatio_bounds (List.length_filter_le _ _) hlen 100 (by norm_num)
    · norm_num

theorem planMatchScore_bounds (u : String) (ids : List String) (n : String) :
    0 ≤ planMatchScore u ids n ∧ planMatchScore u ids n ≤ 100 := by
  unfold planMatchScore
  dsimp only
  split
  · norm_num
  · split
    · norm_num
    · split
      · next hlen =>
          have := wordRatio_bounds (List.length_filter_le
            (fun w => jsIncludes u w) (sigWords n.toUpper)) hlen 80 (by norm_num)
          exact ⟨this.1, le_trans this.2 (by norm_num)⟩
      · norm_num

theorem scanCarriers_bounds (u : String) (carriers : List Carrier) :
    0 ≤ (scanCarriers u carriers).bestScore ∧ (scanCarriers u carriers).bestScore ≤ 100 := by
  unfold scanCarriers
  have init : 0 ≤ (⟨none, 0, []⟩ : CarrierScan).bestScore ∧
      (⟨none, 0, []⟩ : CarrierScan).bestScore ≤ 100 := by norm_num
  generalize (⟨none, 0, []⟩ : CarrierScan) = st at init ⊢
  induction carriers generalizing st with
  | nil => simpa using init
  | cons c cs ih =>
      rw [List.foldl_cons]
      apply ih
      unfold carrierStep
      dsimp only
      split
      · exact carrierMatchScore_bounds u c.name
      · exact init

theorem scanPlans_bounds (u : String) (ids : List String) (carriers : List Carrier)
    (bestCarrier : Option Carrier) (plans : List Plan) :
    0 ≤ (scanPlans u ids carriers bestCarrier plans).bestScore ∧
      (scanPlans u ids carriers bestCarrier plans).bestScore ≤ 100 := by
  unfold scanPlans
  have init : 0 ≤ (⟨none, 0, []⟩ : PlanScan).bestScore ∧
      (⟨none, 0, []⟩ : PlanScan).bestScore ≤ 100 := by norm_num
  generalize (⟨none, 0, []⟩ : PlanScan) = st at init ⊢
  induction plans generalizing st with
  | nil => simpa using init
  | cons p ps ih =>
      rw [List.foldl_cons]
      apply ih
      unfold planStep
      dsimp only
      split
      · exact planMatchScore_bounds u ids p.name
      · exact init

theorem confidenceOf_bounds (cSel : CarrierScan) (pSel : PlanScan)
    (hc : 0 ≤ cSel.bestScore ∧ cSel.bestScore ≤ 100)
    (hp : 0 ≤ pSel.bestScore ∧ pSel.bestScore ≤ 100) :
    0 ≤ confidenceOf cSel pSel ∧ confidenceOf cSel pSel ≤ 100 := by
  obtain ⟨hc0, hc1⟩ := hc
  obtain ⟨hp0, hp1⟩ := hp
  have hmax0 : 0 ≤ max cSel.bestScore pSel.bestScore := le_trans hc0 (le_max_left _ _)
  have hmax1 : max cSel.bestScore pSel.bestScore ≤ 100 := max_le hc1 hp1
  rcases hcb : cSel.best with - | c <;> rcases hpb : pSel.best with - | p <;>
    simp only [confidenceOf, hcb, hpb]
  · norm_num
  · exact ⟨mul_nonneg hmax0 (by norm_num), by nlinarith⟩
  · exact ⟨mul_nonneg hmax0 (by norm_num), by nlinarith⟩
  · constructor <;> split <;> nlinarith

theorem jsRound_bounds {q : ℚ} (h0 : 0 ≤ q) (h1 : q ≤ 100) :
    0 ≤ jsRound q ∧ jsRound q ≤ 100 := by
  unfold jsRound
  constructor
  · exact Int.le_floor.mpr (by push_cast; linarith)
  · have hlt : (⌊q + 1/2⌋ : ℤ) < 101 := by
      rw [Int.floor_lt]
      push_cast
      linarith
    omega

/-- Claim C9: for every classification call, over any catalogs and any text,
the returned (rounded) confidence is between 0 and 100 inclusive, and it is 0
whenever neither a carrier nor a plan was accepted as a match. -/
theorem claim9_confidence_bounds :
    ∀ (text : String) (carriers : List Carrier) (plans : List Plan),
      (0 ≤ (parsePlanDocumentText text carriers plans).confidence ∧
        (parsePlanDocumentText text carriers plans).confidence ≤ 100) ∧
      ((parsePlanDocumentText text carriers plans).carrier = none →
        (parsePlanDocumentText text carriers plans).plan = none →
        (parsePlanDocumentText text carriers plans).confidence = 0) := by
  intro text carriers plans
  unfold parsePlanDocumentText
  dsimp only
  constructor
  · exact jsRound_bounds
      (confidenceOf_bounds _ _ (scanCarriers_bounds _ _) (scanPlans_bounds _ _ _ _ _)).1
      (confidenceOf_bounds _ _ (scanCarriers_bounds _ _) (scanPlans_bounds _ _ _ _ _)).2
  · intro hcnone hpnone
    rw [hcnone] at hpnone
    unfold confidenceOf
    rw [hcnone, hpnone]
    show jsRound 0 = 0
    unfold jsRound
    rw [show (0 : ℚ) + 1/2 = 1/2 by norm_num]
    rw [Int.floor_eq_zero_iff]
    constructor <;> norm_num

/-- Witness for C9's second part: with empty catalogs nothing matches and
the confidence is 0. -/
theorem claim9_confidence_bounds_witness :
    (parsePlanDocumentText "X" [] []).confidence = 0 :=
  (claim9_confidence_bounds "X" [] []).2 rfl rfl

/-! ### Claim C10 -/

/-- Claim C10: the confidence can be computed from the score of a plan other
than the returned matchedPlan.  On this input the foreign-carrier plan (score
100 via its plan-ID hit) overwrites the best-plan score while the matched
plan (score 90, same carrier as the matched AETNA) is kept, so the reported
confidence is the average of 100 and 100 rather than of 100 and 90. -/
theorem claim10_confidence_foreign_score :
    (parsePlanDocumentText "AETNA GOLD PLAN H1234-001" [aetna, blueCross]
        [goldPlan, foreignPlan]).carrier = some aetna ∧
    (parsePlanDocumentText "AETNA GOLD PLAN H1234-001" [aetna, blueCross]
        [goldPlan, foreignPlan]).plan = some goldPlan ∧
    planMatchScore "AETNA GOLD PLAN H1234-001".toUpper
        (findPlanIds "AETNA GOLD PLAN H1234-001") goldPlan.name = 90 ∧
    planMatchScore "AETNA GOLD PLAN H1234-001".toUpper
        (findPlanIds "AETNA GOLD PLAN H1234-001") foreignPlan.name = 100 ∧
    foreignPlan.carrierId ≠ aetna.id ∧
    (parsePlanDocumentText "AETNA GOLD PLAN H1234-001" [aetna, blueCross]
        [goldPlan, foreignPlan]).confidence = 100 ∧
    (parsePlanDocumentText "AETNA GOLD PLAN H1234-001" [aetna, blueCross]
        [goldPlan, foreignPlan]).confidence ≠ jsRound ((100 + 90) / 2) := by
  refine ⟨?_, ?_, ?_, ?_, ?_, ?_, ?_⟩ <;> with_unfolding_all decide

/-! ### Claim C7 -/

theorem hs_char_facts {a : Char} (hH : (a == 'H' || a == 'S') = true) :
    a.isDigit = false ∧ (a == '-') = false := by
  have : a = 'H' ∨ a = 'S' := by
    rcases h' : (a == 'H') with - | -
    · right
      exact beq_iff_eq.mp (by simpa [h'] using hH)
    · left
      exact beq_iff_eq.mp h'
  rcases this with h | h <;> subst h <;> exact ⟨by decide, by decide⟩

/-- Any plan-ID-shaped occurrence in the text is produced by the
left-to-right scan: a token's leading `H`/`S` cannot sit at any non-leading
position of a 9-character window (those positions require a digit or a
hyphen), so no earlier match can consume part of the occurrence. -/
theorem token_found {a b c d e f g h i : Char}
    (shape : planIdShape a b c d e f g h i = true) :
    ∀ (n : ℕ) (l s t : List Char), l.length ≤ n →
      l = s ++ ([a, b, c, d, e, f, g, h, i] ++ t) →
      [a, b, c, d, e, f, g, h, i] ∈ findPlanIdTokens l := by
  have hcomp : ((((((((a == 'H' || a == 'S') = true ∧ b.isDigit = true) ∧ c.isDigit = true) ∧
      d.isDigit = true) ∧ e.isDigit = true) ∧ (f == '-') = true) ∧ g.isDigit = true) ∧
      h.isDigit = true) ∧ i.isDigit = true := by
    simpa only [planIdShape, Bool.and_eq_true] using shape
  obtain ⟨⟨⟨⟨⟨⟨⟨⟨hH, hb⟩, hc⟩, hd⟩, he⟩, hf⟩, hg⟩, hh⟩, hi⟩ := hcomp
  obtain ⟨hdig, hdash⟩ := hs_char_facts hH
  intro n
  induction n with
  | zero =>
      intro l s t hlen heq
      subst heq
      simp at hlen
  | succ n ih =>
      intro l s t hlen heq
      cases s with
      | nil =>
          subst heq
          simp [findPlanIdTokens, shape]
      | cons x s' =>
          subst heq
          rcases s' with - | ⟨y1, s'⟩
          · simp [findPlanIdTokens, planIdShape, hdig, hdash, hH, hb, hc, hd, he, hf, hg, hh, hi]
          rcases s' with - | ⟨y2, s'⟩
          · simp [findPlanIdTokens, planIdShape, hdig, hdash, hH, hb, hc, hd, he, hf, hg, hh, hi]
          rcases s' with - | ⟨y3, s'⟩
          · simp [findPlanIdTokens, planIdShape, hdig, hdash, hH, hb, hc, hd, he, hf, hg, hh, hi]
          rcases s' with - | ⟨y4, s'⟩
          · simp [findPlanIdTokens, planIdShape, hdig, hdash, hH, hb, hc, hd, he, hf, hg, hh, hi]
          rcases s' with - | ⟨y5, s'⟩
          · simp [findPlanIdTokens, planIdShape, hdig, hdash, hH, hb, hc, hd, he, hf, hg, hh, hi]
          rcases s' with - | ⟨y6, s'⟩
          · simp [findPlanIdTokens, planIdShape, hdig, hdash, hH, hb, hc, hd, he, hf, hg, hh, hi]
          rcases s' with - | ⟨y7, s'⟩
          · simp [findPlanIdTokens, planIdShape, hdig, hdash, hH, hb, hc, hd, he, hf, hg, hh, hi]
          rcases s' with - | ⟨y8, s'⟩
          · simp [findPlanIdTokens, planIdShape, hdig, hdash, hH, hb, hc, hd, he, hf, hg, hh, hi]
          · have hlen2 : (s' ++ (a :: b :: c :: d :: e :: f :: g :: h :: i :: t)).length ≤ n := by
              simp only [List.length_cons, List.length_append] at hlen ⊢
              omega
            have hlen1 : ((y1 :: y2 :: y3 :: y4 :: y5 :: y6 :: y7 :: y8 :: s') ++
                (a :: b :: c :: d :: e :: f :: g :: h :: i :: t)).length ≤ n := by
              simp only [List.length_cons, List.length_append] at hlen ⊢
              omega
            simp only [List.cons_append, List.nil_append]
            by_cases hw : planIdShape x y1 y2 y3 y4 y5 y6 y7 y8 = true
            · have heq : findPlanIdTokens (x :: y1 :: y2 :: y3 :: y4 :: y5 :: y6 :: y7 :: y8 ::
                  (s' ++ (a :: b :: c :: d :: e :: f :: g :: h :: i :: t))) =
                  [x, y1, y2, y3, y4, y5, y6, y7, y8] ::
                    findPlanIdTokens (s' ++ (a :: b :: c :: d :: e :: f :: g :: h :: i :: t)) := by
                rw [findPlanIdTokens]
                rw [if_pos hw]
              rw [heq]
              exact List.mem_cons_of_mem _ (ih _ s' t hlen2 rfl)
            · have heq : findPlanIdTokens (x :: y1 :: y2 :: y3 :: y4 :: y5 :: y6 :: y7 :: y8 ::
                  (s' ++ (a :: b :: c :: d :: e :: f :: g :: h :: i :: t))) =
                  findPlanIdTokens (y1 :: y2 :: y3 :: y4 :: y5 :: y6 :: y7 :: y8 ::
                    (s' ++ (a :: b :: c :: d :: e :: f :: g :: h :: i :: t))) := by
                rw [findPlanIdTokens]
                rw [if_neg hw]
              rw [heq]
              exact ih _ (y1 :: y2 :: y3 :: y4 :: y5 :: y6 :: y7 :: y8 :: s') t hlen1
                (by simp [List.cons_append])

/-- A text containing `H5216-321` as a substring always yields it among the
detected plan IDs. -/
theorem mem_findPlanIds_of_occurs {text : String} {s t : List Char}
    (hocc : text.toList = s ++ ("H5216-321".toList ++ t)) :
    "H5216-321" ∈ findPlanIds text := by
  unfold findPlanIds
  apply List.mem_map.mpr
  refine ⟨['H', '5', '2', '1', '6', '-', '3', '2', '1'], ?_, by decide⟩
  exact token_found (by decide) text.toList.length text.toList s t le_rfl hocc

/-- Claim C7: a plan-ID token found in the text that also occurs inside a
candidate plan's name makes that plan's match score exactly 100,
short-circuiting substring and word-overlap scoring; in particular any text
containing `H5216-321` scores the plan `"Advantage Gold H5216-321"` at
exactly 100, regardless of the rest of the text. -/
theorem claim7_plan_id_short_circuit :
    (∀ (upperText : String) (foundIds : List String) (name pid : String),
        pid ∈ foundIds → jsIncludes name.toUpper pid = true →
        planMatchScore upperText foundIds name = 100) ∧
    (∀ (text : String) (s t : List Char),
        text.toList = s ++ ("H5216-321".toList ++ t) →
        planMatchScore text.toUpper (findPlanIds text) "Advantage Gold H5216-321" = 100) := by
  have main : ∀ (upperText : String) (foundIds : List String) (name pid : String),
      pid ∈ foundIds → jsIncludes name.toUpper pid = true →
      planMatchScore upperText foundIds name = 100 := by
    intro u ids nm pid hmem hinc
    unfold planMatchScore
    dsimp only
    rw [if_pos]
    exact List.any_eq_true.mpr ⟨pid, hmem, hinc⟩
  refine ⟨main, ?_⟩
  intro text s t hocc
  exact main _ _ _ "H5216-321" (mem_findPlanIds_of_occurs hocc)
    (by with_unfolding_all decide)

/-- Witness for C7 at a concrete text with surrounding content. -/
theorem claim7_plan_id_short_circuit_witness :
    planMatchScore "PLAN DOC H5216-321 REST".toUpper (findPlanIds "PLAN DOC H5216-321 REST")
      "Advantage Gold H5216-321" = 100 :=
  claim7_plan_id_short_circuit.2 "PLAN DOC H5216-321 REST" "PLAN DOC ".toList " REST".toList
    (by decide)

end ClientManager
